import Mathlib

/-!
Shallow embedding of the SAS link service (`src/app.py`, `src/utils.py`):
JWT-gated issuance of short-lived Azure blob SAS URLs. External
collaborators (the PyJWT decode call, the Azure blob store and the SAS
signer) enter as explicit function parameters or interface models;
everything else is translated directly from the Python source. Python
string truthiness, `or`, `str()` normalization, `str.split()` and
`urllib.parse.quote` are modelled explicitly; ASCII lowercasing stands in
for `str.lower()` (all scheme, region and view comparisons are ASCII).
-/

/-- Python truthiness of a `str`: nonempty. -/
def pyTruthyStr (s : String) : Bool := !s.data.isEmpty

/-- Python truthiness of an `Optional[str]`: present and nonempty. -/
def pyTruthy : Option String → Bool
  | none => false
  | some s => pyTruthyStr s

/-- Python `a or b` for `a : Optional[str]`, `b : str`. -/
def pyOrStr (a : Option String) (b : String) : String :=
  match a with
  | some s => if pyTruthyStr s then s else b
  | none => b

/-- Python `a or b` for two `Optional[str]` values. -/
def pyOr (a b : Option String) : Option String :=
  if pyTruthy a then a else b

/-- ASCII lowercasing, modelling Python `str.lower()` on the identifiers used here. -/
def pyLower (s : String) : String := String.mk (s.data.map Char.toLower)

/-- Tokenizer behind Python `header.strip().split()`: split on whitespace
runs, dropping empty parts. -/
def pySplitWsAux : List Char → List Char → List String
  | [], acc => if acc.isEmpty then [] else [String.mk acc.reverse]
  | c :: cs, acc =>
    if c.isWhitespace then
      if acc.isEmpty then pySplitWsAux cs []
      else String.mk acc.reverse :: pySplitWsAux cs []
    else pySplitWsAux cs (c :: acc)

/-- Python `str.strip().split()` as used on the auth header value. -/
def pySplitWs (s : String) : List String := pySplitWsAux s.data []

/-- Case-insensitive header lookup, modelling starlette `Headers.get`. -/
def headersGet (headers : List (String × String)) (name : String) : Option String :=
  (headers.find? (fun kv => pyLower kv.1 == pyLower name)).map (fun kv => kv.2)

/-- Python `dict.get` over an association list (the container maps). -/
def mapGet (m : List (String × String)) (k : String) : Option String :=
  (m.find? (fun kv => kv.1 == k)).map (fun kv => kv.2)

/-- A claim value as PyJWT hands it back (the `characterId` claim can be a
JSON number, string, or null). -/
inductive PyVal where
  | vInt (n : Int)
  | vStr (s : String)
  | vNone
deriving DecidableEq

/-- Python `str()` of a claim value (`str(None)` is `"None"`). -/
def pyValStr : PyVal → String
  | .vInt n => toString n
  | .vStr s => s
  | .vNone => "None"

/-- Decoded token claims: the fields `verify_and_match` and `jwt.decode` look at. -/
structure Claims where
  characterId : Option PyVal
  exp : Option Int
  iat : Option Int
deriving DecidableEq

/-- Python `str(claims.get("characterId"))`: absent keys read as `None`. -/
def characterIdStr (c : Claims) : String :=
  match c.characterId with
  | none => "None"
  | some v => pyValStr v

/-- Abstract view of one serialized JWT: its claims plus whether its RS256
signature verifies against the configured public key. -/
structure Token where
  sigValid : Bool
  claims : Claims

/-- Modelled from the spec: the external PyJWT call
`jwt.decode(token, key, algorithms=RS256, options requiring exp and iat
with expiry verification)` made by `verify_and_match` (src/utils.py lines
45-50); the PyJWT library itself is not part of src/. Decoding fails
unless the signature verifies, both required claims are present, and
`exp` is strictly in the future. -/
def jwtDecode (now : Int) (tok : Token) : Except String Claims :=
  if tok.sigValid then
    match tok.claims.exp, tok.claims.iat with
    | some e, some _ =>
      if e ≤ now then Except.error "Signature has expired"
      else Except.ok tok.claims
    | none, _ => Except.error "Token is missing the exp claim"
    | some _, none => Except.error "Token is missing the iat claim"
  else Except.error "Signature verification failed"

/-- Decode function induced by a raw-token parse and a clock instant. -/
def jwtDecodeVia (parse : String → Token) (now : Int) : String → Except String Claims :=
  fun s => jwtDecode now (parse s)

/-- `JWTAuth` (src/utils.py lines 9-11): holds the optional public key bytes. -/
structure JWTAuth where
  public_key : Option String

/-- `JWTAuth._extract_bearer_token` (src/utils.py lines 13-27): reads the
`Authentication` header only, accepting a bare token or `Bearer <token>`. -/
def extract_bearer_token (headers : List (String × String)) : Option String :=
  match headersGet headers "Authentication" with
  | none => none
  | some header =>
    if pyTruthyStr header then
      match pySplitWs header with
      | [t] => some t
      | [scheme, t] => if pyLower scheme = "bearer" then some t else none
      | _ => none
    else none

/-- `JWTAuth.verify_and_match` (src/utils.py lines 29-65), with the PyJWT
decode step passed in as a function; errors are the raised `ValueError`
messages. -/
def verify_and_match (auth : JWTAuth) (decode : String → Except String Claims)
    (headers : List (String × String)) (character_id : String) : Except String Claims :=
  if pyTruthy auth.public_key then
    match extract_bearer_token headers with
    | none => Except.error "Missing JWT"
    | some token =>
      match decode token with
      | Except.error _ => Except.error "Invalid token."
      | Except.ok claims =>
        if characterIdStr claims ≠ character_id then Except.error "Invalid token."
        else Except.ok claims
  else Except.error "JWT verification not available"

/-- `resolve_blob_name` (src/app.py lines 106-111). -/
def resolve_blob_name (character_id : String) : Option String :=
  some (character_id ++ ".pdf")

/-- View-mode resolution shared by both endpoints (src/app.py lines
250-252 and 316-318): default and invalid values coerce to attachment. -/
def resolve_view_mode (view : Option String) : String :=
  let view_mode := pyLower (pyOrStr view "attachment")
  if view_mode = "inline" ∨ view_mode = "attachment" then view_mode else "attachment"

/-- Report-container precedence (src/app.py lines 243-247). -/
def resolve_container (cmap : List (String × String)) (defaultC : String)
    (container region : Option String) : String :=
  let c1 := container
  let c2 := if !(pyTruthy c1) && pyTruthy region
            then mapGet cmap (pyLower (region.getD ""))
            else c1
  if pyTruthy c2 then c2.getD defaultC else defaultC

/-- Certificate-container precedence (src/app.py lines 307-313), including
the keyed `dict.get` with literal fallback on the configured app region. -/
def resolve_container_cert (certMap : List (String × String)) (appRegion certDefault : String)
    (container region : Option String) : String :=
  let c1 := container
  let c2 := if !(pyTruthy c1) && pyTruthy region
            then mapGet certMap (pyLower (region.getD ""))
            else c1
  let c3 := if !(pyTruthy c2)
            then some ((mapGet certMap appRegion).getD "certificates-cn")
            else c2
  if pyTruthy c3 then c3.getD certDefault else certDefault

/-- Spec wording for the region step: the region-mapped container when the
(case-insensitively) recognized region maps to a non-empty name, else the
configured default. -/
def region_container_spec (cmap : List (String × String)) (defaultC : String)
    (region : Option String) : String :=
  match region with
  | none => defaultC
  | some rg =>
    if pyTruthyStr rg then
      match mapGet cmap (pyLower rg) with
      | none => defaultC
      | some v => if pyTruthyStr v then v else defaultC
    else defaultC

/-- Spec wording for container precedence: the first non-empty of explicit
override, region-mapped container, configured default wins. -/
def resolve_container_spec (cmap : List (String × String)) (defaultC : String)
    (container region : Option String) : String :=
  match container with
  | some c => if pyTruthyStr c then c else region_container_spec cmap defaultC region
  | none => region_container_spec cmap defaultC region

/-- Default of `SAS_TTL_MIN`, read from the environment with default
literal "5" (src/app.py line 27). -/
def SAS_TTL_MIN_default : Int := 5

/-- UTF-8 encoding of one character, as byte values. -/
def utf8Bytes (c : Char) : List Nat :=
  let n := c.toNat
  if n < 128 then [n]
  else if n < 2048 then [192 + n / 64, 128 + n % 64]
  else if n < 65536 then [224 + n / 4096, 128 + (n / 64) % 64, 128 + n % 64]
  else [240 + n / 262144, 128 + (n / 4096) % 64, 128 + (n / 64) % 64, 128 + n % 64]

/-- Upper-case percent escape of one byte, as `urllib.parse.quote` emits. -/
def byteHex (n : Nat) : String :=
  let ds : List Char := ['0','1','2','3','4','5','6','7','8','9','A','B','C','D','E','F']
  String.mk ['%', ds.getD (n / 16 % 16) '0', ds.getD (n % 16) '0']

/-- Bytes `urllib.parse.quote` never escapes: ASCII letters, digits, and `_.-~`. -/
def isAlwaysSafeByte (n : Nat) : Bool :=
  (65 ≤ n && n ≤ 90) || (97 ≤ n && n ≤ 122) || (48 ≤ n && n ≤ 57) ||
  n == 45 || n == 46 || n == 95 || n == 126

/-- `urllib.parse.quote(s, safe)`: percent-encode UTF-8 bytes outside the safe set. -/
def pyQuote (safe : String) (s : String) : String :=
  String.join (((s.data.map utf8Bytes).flatten).map (fun n =>
    if isAlwaysSafeByte n || safe.data.any (fun c => c.toNat == n) then
      String.singleton (Char.ofNat n)
    else byteHex n))

/-- `os.path.basename` for POSIX paths: the suffix after the last slash. -/
def posixBasenameAux : List Char → List Char → List Char
  | [], acc => acc.reverse
  | c :: cs, acc => if c = '/' then posixBasenameAux cs [] else posixBasenameAux cs (c :: acc)

/-- Basename step of `build_sas_url` (`os.path.basename(blob_name)`). -/
def posixBasename (s : String) : String := String.mk (posixBasenameAux s.data [])

/-- Arguments handed to the external Azure `generate_blob_sas` call inside
`build_sas_url` (src/app.py lines 153-166). -/
structure SignRequest where
  container : String
  blob_name : String
  start : Int
  expiry : Int
  content_disposition : String
  content_type : String
deriving DecidableEq

/-- The pure prefix of `build_sas_url` (src/app.py lines 120-166):
container and blob-name fallbacks, disposition and filename handling, the
validity window, and the arguments passed to `generate_blob_sas`; `none`
is the `FileNotFoundError` raise. Times are in seconds and `now` is the
`datetime.utcnow()` instant. -/
def build_sign_request (defaultContainer : String) (ttlMin now : Int)
    (character_id : String) (container_name : Option String) (view : String)
    (filename : Option String) (content_type : String)
    (blob_name_override : Option String) : Option SignRequest :=
  let container := pyOrStr container_name defaultContainer
  let bn := pyOr blob_name_override (resolve_blob_name character_id)
  if pyTruthy bn then
    let blob_name := bn.getD ""
    let disp := if pyLower view = "inline" then "inline" else "attachment"
    let basename := pyOrStr filename (posixBasename blob_name)
    let encoded_filename := pyQuote "/" basename
    some { container := container, blob_name := blob_name,
           start := now - 5 * 60, expiry := now + ttlMin * 60,
           content_disposition := disp ++ "; filename=\x22" ++ encoded_filename ++ "\x22",
           content_type := content_type }
  else none

/-- ASCII fallback filename from `build_sas_url` (src/app.py line 171):
non-ASCII characters stripped, empty result replaced by `report.pdf`. -/
def ascii_fallback (basename : String) : String :=
  let stripped := String.mk (basename.data.filter (fun c => c.toNat < 128))
  if pyTruthyStr stripped then stripped else "report.pdf"

/-- The dual-form Content-Disposition string that `build_sas_url` computes
and logs after signing (src/app.py lines 170-174). -/
def logged_content_disposition (disp basename : String) : String :=
  disp ++ "; filename=\x22" ++ ascii_fallback basename ++ "\x22; filename*=UTF-8\x27\x27" ++
    pyQuote "" basename

/-- Outcome of `build_sas_url`: a URL, the `FileNotFoundError` raise, or an
exception escaping from signing. -/
inductive BuildResult where
  | ok (url : String)
  | fileNotFound (msg : String)
  | exc (msg : String)
deriving DecidableEq

/-- `build_sas_url` (src/app.py lines 120-175) over an abstract signer
standing for the external `generate_blob_sas`. -/
def build_sas_url (signer : SignRequest → Except String String)
    (accountName endpointSuffix defaultContainer : String) (ttlMin now : Int)
    (character_id : String) (container_name : Option String) (view : String)
    (filename : Option String) (content_type : String)
    (blob_name_override : Option String) : BuildResult :=
  match build_sign_request defaultContainer ttlMin now character_id container_name view
      filename content_type blob_name_override with
  | none => BuildResult.fileNotFound "Blob not found for given character_id"
  | some req =>
    match signer req with
    | Except.error m => BuildResult.exc m
    | Except.ok sas =>
      BuildResult.ok ("https://" ++ accountName ++ ".blob." ++ endpointSuffix ++ "/" ++
        req.container ++ "/" ++ req.blob_name ++ "?" ++ sas)

/-- Result of the underlying Azure `exists()` call: a boolean or a raised error. -/
inductive StoreResult where
  | ok (b : Bool)
  | err (msg : String)
deriving DecidableEq

/-- `blob_exists` (src/app.py lines 113-118): any store exception becomes `false`. -/
def blob_exists (store : String → String → StoreResult)
    (container_name blob_name : String) : Bool :=
  match store container_name blob_name with
  | StoreResult.ok b => b
  | StoreResult.err _ => false

/-- The uniform response envelope plus its HTTP status. -/
structure ApiResp where
  status : Nat
  code : Int
  message : String
  data : Option String
deriving DecidableEq

/-- `get_report_sas` (src/app.py lines 212-275). The boolean component
records whether `build_sas_url` was invoked during the request. -/
def get_report_sas (auth : JWTAuth) (decode : String → Except String Claims)
    (store : String → String → StoreResult) (signer : SignRequest → Except String String)
    (cmap : List (String × String)) (defaultContainer accountName endpointSuffix : String)
    (ttlMin now : Int) (headers : List (String × String)) (character_id : String)
    (container region view filename content_type : Option String) : ApiResp × Bool :=
  match verify_and_match auth decode headers character_id with
  | Except.error e => (⟨401, 0, e, none⟩, false)
  | Except.ok _ =>
    let container_name := resolve_container cmap defaultContainer container region
    let view_mode := resolve_view_mode view
    let blob_name := (resolve_blob_name character_id).getD ""
    if blob_exists store container_name blob_name then
      match build_sas_url signer accountName endpointSuffix defaultContainer ttlMin now
          character_id (some container_name) view_mode filename
          (pyOrStr content_type "application/pdf") none with
      | BuildResult.ok url => (⟨200, 1, "Success", some url⟩, true)
      | BuildResult.fileNotFound m => (⟨200, 0, m, none⟩, true)
      | BuildResult.exc _ => (⟨200, 0, "Failed to generate SAS link", none⟩, true)
    else (⟨404, 0, "Not Found", none⟩, false)

/-- `get_certificate_sas` (src/app.py lines 278-345). The boolean component
records whether `build_sas_url` was invoked during the request. -/
def get_certificate_sas (auth : JWTAuth) (decode : String → Except String Claims)
    (store : String → String → StoreResult) (signer : SignRequest → Except String String)
    (certMap : List (String × String)) (appRegion certDefault : String)
    (defaultContainer accountName endpointSuffix : String)
    (ttlMin now : Int) (headers : List (String × String)) (character_id : String)
    (container region view filename : Option String) : ApiResp × Bool :=
  match verify_and_match auth decode headers character_id with
  | Except.error e => (⟨401, 0, e, none⟩, false)
  | Except.ok _ =>
    let container_name := resolve_container_cert certMap appRegion certDefault container region
    let view_mode := resolve_view_mode view
    let png_blob_name := character_id ++ ".png"
    if blob_exists store container_name png_blob_name then
      match build_sas_url signer accountName endpointSuffix defaultContainer ttlMin now
          character_id (some container_name) view_mode
          (some (pyOrStr filename png_blob_name)) "image/png" (some png_blob_name) with
      | BuildResult.ok url => (⟨200, 1, "Success", some url⟩, true)
      | BuildResult.fileNotFound m => (⟨200, 0, m, none⟩, true)
      | BuildResult.exc _ => (⟨200, 0, "Failed to generate certificate SAS link", none⟩, true)
    else (⟨404, 0, "Not Found", none⟩, false)


/-! Concrete fixtures used by witnesses and counterexamples. -/

/-- Report container map with the source's default names (src/app.py lines 39-43). -/
def cmapFix : List (String × String) :=
  [("cn", "reports-cn"), ("hk", "reports-hk"), ("en", "reports-en")]

/-- Certificate container map with the source's default names (src/app.py lines 46-50). -/
def certMapFix : List (String × String) :=
  [("cn", "certificates-cn"), ("hk", "certificates-hk"), ("en", "certificates-en")]

/-- Claims of a well-formed token for character 693595. -/
def claimsFix : Claims := ⟨some (PyVal.vStr "693595"), some 2000, some 0⟩

/-- Parse giving a valid signed token for character 693595 on every input. -/
def parseFix : String → Token := fun _ => ⟨true, claimsFix⟩

/-- Auth object with a configured public key. -/
def authFix : JWTAuth := ⟨some "pubkey"⟩

/-- Headers carrying a well-formed bearer token. -/
def headersFix : List (String × String) := [("Authentication", "Bearer sometoken")]

/-- Decode that accepts every token with the fixture claims. -/
def decodeOkFix : String → Except String Claims := fun _ => Except.ok claimsFix

/-- Store in which every object exists. -/
def storeTrueFix : String → String → StoreResult := fun _ _ => StoreResult.ok true

/-- Store whose underlying calls always raise. -/
def storeErrFix : String → String → StoreResult := fun _ _ => StoreResult.err "connection refused"

/-- Signer that always succeeds with an opaque signature. -/
def signerOkFix : SignRequest → Except String String := fun _ => Except.ok "sig=abc"

/-- Signer whose external call always raises. -/
def signerFailFix : SignRequest → Except String String := fun _ => Except.error "bad credential"

/-! Claim theorems. -/

/-- Claim C3 (code bug evaluation): a request carrying the token only under
the `Authorization` header name is not recognized — `_extract_bearer_token`
reads the `Authentication` header exclusively, contradicting its own
docstring, so extraction yields nothing and verification rejects the
request with `Missing JWT` even though the token is valid. -/
theorem claim3_authorization_header_ignored :
    extract_bearer_token [("Authorization", "Bearer sometoken")] = none ∧
    verify_and_match authFix decodeOkFix [("Authorization", "Bearer sometoken")] "693595"
      = Except.error "Missing JWT" := by
  constructor
  · rfl
  · rfl

/-- Claim C8 (code bug evaluation): for the display filename `报告.pdf` the
Content-Disposition override actually embedded in the signing request is
the single form with a percent-encoded `filename` parameter; the dual
form with ASCII fallback and `filename*` extension is computed and logged
by `build_sas_url` but never passed to `generate_blob_sas`. -/
theorem claim8_disposition_single_form :
    (build_sign_request "reports-cn" 5 1000 "693595" (some "reports-cn") "attachment"
        (some "报告.pdf") "application/pdf" none).map (fun r => r.content_disposition)
      = some "attachment; filename=\x22%E6%8A%A5%E5%91%8A.pdf\x22" ∧
    logged_content_disposition "attachment" "报告.pdf"
      = "attachment; filename=\x22.pdf\x22; filename*=UTF-8\x27\x27%E6%8A%A5%E5%91%8A.pdf" ∧
    (build_sign_request "reports-cn" 5 1000 "693595" (some "reports-cn") "attachment"
        (some "报告.pdf") "application/pdf" none).map (fun r => r.content_disposition)
      ≠ some (logged_content_disposition "attachment" "报告.pdf") := by
  refine ⟨by decide, by decide, by decide⟩

/-- Claim C5: any supplied `view` value that is not `inline` or
`attachment` after case-insensitive comparison (including an absent
parameter) resolves to disposition mode `attachment`, and the report
endpoint treats such a request exactly as one that asked for
`attachment` — it is not rejected. -/
theorem claim5_view_fallback (view : Option String)
    (h : ∀ s, view = some s → ¬(pyLower s = "inline" ∨ pyLower s = "attachment")) :
    resolve_view_mode view = "attachment" ∧
    ∀ auth decode store signer cmap dC aN eS ttl now headers cid container region filename ct,
      get_report_sas auth decode store signer cmap dC aN eS ttl now headers cid
          container region view filename ct
        = get_report_sas auth decode store signer cmap dC aN eS ttl now headers cid
            container region (some "attachment") filename ct := by
  have hmode : resolve_view_mode view = "attachment" := by
    cases view with
    | none => decide
    | some s =>
      by_cases hemp : pyTruthyStr s
      · have hs := h s rfl
        unfold resolve_view_mode pyOrStr
        simp only [hemp, if_true]
        rw [if_neg hs]
      · simp only [resolve_view_mode, pyOrStr, hemp, Bool.false_eq_true, if_false]
        decide
  refine ⟨hmode, ?_⟩
  intro auth decode store signer cmap dC aN eS ttl now headers cid container region filename ct
  unfold get_report_sas
  rw [hmode]
  have : resolve_view_mode (some "attachment") = "attachment" := by decide
  rw [this]

/-- Claim C5 witness: the invalid view value `preview` resolves to `attachment`. -/
theorem claim5_witness : resolve_view_mode (some "preview") = "attachment" :=
  (claim5_view_fallback (some "preview")
    (by intro s hs; injection hs with h1; subst h1; decide)).1

/-- Claim C6: every signing request built by the Link Signer carries a
validity window whose start is the issuance instant minus 5 minutes and
whose expiry is the issuance instant plus the configured TTL in minutes
(default 5) — exactly, hence within one second of tolerance. -/
theorem claim6_validity_window (defaultContainer : String) (ttlMin now : Int)
    (character_id : String) (container_name : Option String) (view : String)
    (filename : Option String) (content_type : String)
    (blob_name_override : Option String) (r : SignRequest)
    (h : build_sign_request defaultContainer ttlMin now character_id container_name view
          filename content_type blob_name_override = some r) :
    r.start = now - 5 * 60 ∧ r.expiry = now + ttlMin * 60 ∧
    (r.start - (now - 5 * 60)).natAbs ≤ 1 ∧ (r.expiry - (now + ttlMin * 60)).natAbs ≤ 1 ∧
    (ttlMin = SAS_TTL_MIN_default → r.expiry = now + 5 * 60) := by
  unfold build_sign_request at h
  by_cases hb : pyTruthy (pyOr blob_name_override (resolve_blob_name character_id))
  · simp only [hb, if_true, Option.some.injEq] at h
    subst h
    refine ⟨rfl, rfl, by simp, by simp, ?_⟩
    intro ht
    subst ht
    rfl
  · simp only [hb] at h
    simp at h

/-- Claim C6 witness: concrete signing request at issuance time 1000 with
the default TTL. -/
theorem claim6_witness :
    (1000 : Int) - 5 * 60 = 700 ∧ (1000 : Int) + 5 * 60 = 1300 ∧
    ({ container := "reports-cn", blob_name := "693595.pdf", start := 700, expiry := 1300,
       content_disposition := "attachment; filename=\x22693595.pdf\x22",
       content_type := "application/pdf" } : SignRequest).start = 1000 - 5 * 60 := by
  refine ⟨by decide, by decide,
    (claim6_validity_window "reports-cn" 5 1000 "693595" (some "reports-cn") "attachment"
      none "application/pdf" none _ (by decide)).1⟩

/-- Helper: appending a non-empty suffix keeps a string Python-truthy. -/
theorem pyTruthyStr_append (s t : String) (h : pyTruthyStr t = true) :
    pyTruthyStr (s ++ t) = true := by
  unfold pyTruthyStr at h ⊢
  rw [String.data_append]
  cases hs : s.data with
  | nil => simpa using h
  | cons c cs => simp [List.isEmpty]

/-- Claim C4: both endpoints choose the container by the first-non-empty
precedence the spec states — explicit `container` query parameter, else the
(case-insensitively) region-mapped container for the resource kind, else
the configured default for the resource kind, with unrecognized regions
falling through to the default. The hypothesis is the startup invariant
that the certificate default is the certificate map's entry for the
configured app region (src/app.py lines 54-61). -/
theorem claim4_container_precedence (cmap certMap : List (String × String))
    (defaultC appRegion certDefault : String) (container region : Option String)
    (hc : mapGet certMap appRegion = some certDefault) :
    resolve_container cmap defaultC container region
      = resolve_container_spec cmap defaultC container region ∧
    resolve_container_cert certMap appRegion certDefault container region
      = resolve_container_spec certMap certDefault container region := by
  have hgd : (mapGet certMap appRegion).getD "certificates-cn" = certDefault := by
    rw [hc]; rfl
  constructor
  · cases container with
    | none =>
      cases region with
      | none => simp [resolve_container, resolve_container_spec, region_container_spec, pyTruthy]
      | some rg =>
        by_cases hrg : pyTruthyStr rg
        · cases hm : mapGet cmap (pyLower rg) with
          | none =>
            simp [resolve_container, resolve_container_spec, region_container_spec,
              pyTruthy, hrg, hm]
          | some v =>
            by_cases hv : pyTruthyStr v <;>
              simp [resolve_container, resolve_container_spec, region_container_spec,
                pyTruthy, hrg, hm, hv]
        · simp [resolve_container, resolve_container_spec, region_container_spec,
            pyTruthy, hrg]
    | some c =>
      by_cases hct : pyTruthyStr c
      · simp [resolve_container, resolve_container_spec, pyTruthy, hct]
      · cases region with
        | none =>
          simp [resolve_container, resolve_container_spec, region_container_spec,
            pyTruthy, hct]
        | some rg =>
          by_cases hrg : pyTruthyStr rg
          · cases hm : mapGet cmap (pyLower rg) with
            | none =>
              simp [resolve_container, resolve_container_spec, region_container_spec,
                pyTruthy, hct, hrg, hm]
            | some v =>
              by_cases hv : pyTruthyStr v <;>
                simp [resolve_container, resolve_container_spec, region_container_spec,
                  pyTruthy, hct, hrg, hm, hv]
          · simp [resolve_container, resolve_container_spec, region_container_spec,
              pyTruthy, hct, hrg]
  · cases container with
    | none =>
      cases region with
      | none =>
        by_cases hcd : pyTruthyStr certDefault <;>
          simp [resolve_container_cert, resolve_container_spec, region_container_spec,
            pyTruthy, hgd, hcd]
      | some rg =>
        by_cases hrg : pyTruthyStr rg
        · cases hm : mapGet certMap (pyLower rg) with
          | none =>
            by_cases hcd : pyTruthyStr certDefault <;>
              simp [resolve_container_cert, resolve_container_spec, region_container_spec,
                pyTruthy, hgd, hrg, hm, hcd]
          | some v =>
            by_cases hv : pyTruthyStr v
            · simp [resolve_container_cert, resolve_container_spec, region_container_spec,
                pyTruthy, hgd, hrg, hm, hv]
            · by_cases hcd : pyTruthyStr certDefault <;>
                simp [resolve_container_cert, resolve_container_spec, region_container_spec,
                  pyTruthy, hgd, hrg, hm, hv, hcd]
        · by_cases hcd : pyTruthyStr certDefault <;>
            simp [resolve_container_cert, resolve_container_spec, region_container_spec,
              pyTruthy, hgd, hrg, hcd]
    | some c =>
      by_cases hct : pyTruthyStr c
      · simp [resolve_container_cert, resolve_container_spec, pyTruthy, hct]
      · cases region with
        | none =>
          by_cases hcd : pyTruthyStr certDefault <;>
            simp [resolve_container_cert, resolve_container_spec, region_container_spec,
              pyTruthy, hgd, hct, hcd]
        | some rg =>
          by_cases hrg : pyTruthyStr rg
          · cases hm : mapGet certMap (pyLower rg) with
            | none =>
              by_cases hcd : pyTruthyStr certDefault <;>
                simp [resolve_container_cert, resolve_container_spec, region_container_spec,
                  pyTruthy, hgd, hct, hrg, hm, hcd]
            | some v =>
              by_cases hv : pyTruthyStr v
              · simp [resolve_container_cert, resolve_container_spec, region_container_spec,
                  pyTruthy, hgd, hct, hrg, hm, hv]
              · by_cases hcd : pyTruthyStr certDefault <;>
                  simp [resolve_container_cert, resolve_container_spec, region_container_spec,
                    pyTruthy, hgd, hct, hrg, hm, hv, hcd]
          · by_cases hcd : pyTruthyStr certDefault <;>
              simp [resolve_container_cert, resolve_container_spec, region_container_spec,
                pyTruthy, hgd, hct, hrg, hcd]

/-- Claim C4 witness: with the default maps, a request with no explicit
container and region `HK` resolves per the spec precedence on both the
report and the certificate side. -/
theorem claim4_witness :
    resolve_container cmapFix "reports-cn" none (some "HK")
      = resolve_container_spec cmapFix "reports-cn" none (some "HK") ∧
    resolve_container_cert certMapFix "cn" "certificates-cn" none (some "HK")
      = resolve_container_spec certMapFix "certificates-cn" none (some "HK") :=
  claim4_container_precedence cmapFix certMapFix "reports-cn" "cn" "certificates-cn"
    none (some "HK") (by decide)

/-- Claim C10: when the `Authentication` header value splits on whitespace
into two parts whose first part is not `bearer` case-insensitively, or
into three or more parts, no token is extracted — regardless of what the
parts contain — and the request is rejected as Unauthorized with message
`Missing JWT` (given a configured key, which is what makes extraction the
deciding step). -/
theorem claim10_malformed_auth_header (auth : JWTAuth) (decode : String → Except String Claims)
    (headers : List (String × String)) (character_id header : String)
    (hkey : pyTruthy auth.public_key = true)
    (hh : headersGet headers "Authentication" = some header)
    (hbad : ((pySplitWs header).length = 2 ∧ pyLower ((pySplitWs header).headD "") ≠ "bearer")
            ∨ 3 ≤ (pySplitWs header).length) :
    extract_bearer_token headers = none ∧
    verify_and_match auth decode headers character_id = Except.error "Missing JWT" ∧
    ∀ store signer cmap dC aN eS ttl now container region view filename ct,
      get_report_sas auth decode store signer cmap dC aN eS ttl now headers character_id
          container region view filename ct
        = (⟨401, 0, "Missing JWT", none⟩, false) := by
  have hx : extract_bearer_token headers = none := by
    simp only [extract_bearer_token, hh]
    by_cases hemp : pyTruthyStr header
    · rw [if_pos hemp]
      rcases hp : pySplitWs header with _ | ⟨a, _ | ⟨b, _ | ⟨c, rest⟩⟩⟩
      · rfl
      · rw [hp] at hbad; simp at hbad
      · rw [hp] at hbad
        simp only [List.length_cons, List.length_nil, List.headD_cons] at hbad
        have hb : pyLower a ≠ "bearer" := by
          rcases hbad with ⟨-, hb⟩ | hlen
          · exact hb
          · omega
        simp [hb]
      · rfl
    · rw [if_neg hemp]
  have hv : verify_and_match auth decode headers character_id = Except.error "Missing JWT" := by
    unfold verify_and_match
    rw [hkey, if_pos rfl, hx]
  refine ⟨hx, hv, ?_⟩
  intro store signer cmap dC aN eS ttl now container region view filename ct
  simp [get_report_sas, hv]

/-- Claim C10 witness: the header value `Token abc` (two parts, scheme not
`bearer`) yields no token and a `Missing JWT` rejection. -/
theorem claim10_witness :
    extract_bearer_token [("Authentication", "Token abc")] = none ∧
    verify_and_match authFix decodeOkFix [("Authentication", "Token abc")] "693595"
      = Except.error "Missing JWT" :=
  let h := claim10_malformed_auth_header authFix decodeOkFix
    [("Authentication", "Token abc")] "693595" "Token abc" (by decide) (by decide)
    (Or.inl ⟨by decide, by decide⟩)
  ⟨h.1, h.2.1⟩

/-- Claim C2 counterexample: two rejected verification attempts whose
client-visible response messages differ by cause — an unconfigured key
reads `JWT verification not available` while a missing token reads
`Missing JWT` — so rejections do not all carry one generic message. -/
theorem claim2_counterexample :
    (get_report_sas ⟨none⟩ decodeOkFix storeTrueFix signerOkFix cmapFix "reports-cn" "acct"
        "core.windows.net" 5 1000 headersFix "693595" none none none none none).1.message
      = "JWT verification not available" ∧
    (get_report_sas authFix decodeOkFix storeTrueFix signerOkFix cmapFix "reports-cn" "acct"
        "core.windows.net" 5 1000 [] "693595" none none none none none).1.message
      = "Missing JWT" ∧
    "JWT verification not available" ≠ "Missing JWT" :=
  ⟨rfl, rfl, by decide⟩

/-- Claim C2 as amended: a rejected verification attempt carries one of
exactly three messages, determined by cause class — `JWT verification not
available` when no key is configured, `Missing JWT` when no token is
extracted, and the single generic `Invalid token.` for every token that
was extracted but failed (signature, required claims, expiry, or entity-ID
mismatch, which the message does not distinguish). -/
theorem claim2_amended_messages (auth : JWTAuth) (decode : String → Except String Claims)
    (headers : List (String × String)) (character_id e : String)
    (h : verify_and_match auth decode headers character_id = Except.error e) :
    (e = "JWT verification not available" ∨ e = "Missing JWT" ∨ e = "Invalid token.") ∧
    (pyTruthy auth.public_key = false → e = "JWT verification not available") ∧
    (pyTruthy auth.public_key = true → extract_bearer_token headers = none →
      e = "Missing JWT") ∧
    (pyTruthy auth.public_key = true → ∀ t, extract_bearer_token headers = some t →
      e = "Invalid token.") := by
  refine ⟨?_, ?_, ?_, ?_⟩
  · unfold verify_and_match at h
    cases hk : pyTruthy auth.public_key
    · rw [hk, if_neg (by decide)] at h
      simp only [Except.error.injEq] at h
      exact Or.inl h.symm
    · rw [hk, if_pos rfl] at h
      cases hx : extract_bearer_token headers with
      | none =>
        rw [hx] at h
        simp only [Except.error.injEq] at h
        exact Or.inr (Or.inl h.symm)
      | some t =>
        rw [hx] at h
        cases hd : decode t with
        | error m =>
          simp only [hd, Except.error.injEq] at h
          exact Or.inr (Or.inr h.symm)
        | ok c =>
          simp only [hd] at h
          by_cases hm : characterIdStr c ≠ character_id
          · rw [if_pos hm] at h
            simp only [Except.error.injEq] at h
            exact Or.inr (Or.inr h.symm)
          · rw [if_neg hm] at h
            exact absurd h (by simp)
  · intro hk
    unfold verify_and_match at h
    rw [hk, if_neg (by decide)] at h
    simp only [Except.error.injEq] at h
    exact h.symm
  · intro hk hx
    unfold verify_and_match at h
    rw [hk, if_pos rfl, hx] at h
    simp only [Except.error.injEq] at h
    exact h.symm
  · intro hk t hx
    unfold verify_and_match at h
    rw [hk, if_pos rfl, hx] at h
    cases hd : decode t with
    | error m =>
      simp only [hd, Except.error.injEq] at h
      exact h.symm
    | ok c =>
      simp only [hd] at h
      by_cases hm : characterIdStr c ≠ character_id
      · rw [if_pos hm] at h
        simp only [Except.error.injEq] at h
        exact h.symm
      · rw [if_neg hm] at h
        exact absurd h (by simp)

/-- Claim C2 witness: the amended message taxonomy at a concrete rejected
attempt (configured key, no token present). -/
theorem claim2_witness :
    ("Missing JWT" = "JWT verification not available" ∨ "Missing JWT" = "Missing JWT" ∨
      "Missing JWT" = "Invalid token.") ∧
    (pyTruthy authFix.public_key = false → "Missing JWT" = "JWT verification not available") ∧
    (pyTruthy authFix.public_key = true → extract_bearer_token [] = none →
      "Missing JWT" = "Missing JWT") ∧
    (pyTruthy authFix.public_key = true → ∀ t, extract_bearer_token [] = some t →
      ("Missing JWT" : String) = "Invalid token.") :=
  claim2_amended_messages authFix decodeOkFix [] "693595" "Missing JWT" rfl

/-- Claim C7: the existence check is total — any underlying store error
yields `false` — and whenever it is `false` for the resolved container and
blob name of an authenticated report request, the endpoint answers
HTTP 404 with code 0 and message `Not Found` and `build_sas_url` is never
invoked (second component `false`). -/
theorem claim7_existence_gate (store : String → String → StoreResult) :
    (∀ container_name blob_name m, store container_name blob_name = StoreResult.err m →
       blob_exists store container_name blob_name = false) ∧
    (∀ auth decode signer cmap dC aN eS ttl now headers cid container region view filename ct
       claims,
       verify_and_match auth decode headers cid = Except.ok claims →
       blob_exists store (resolve_container cmap dC container region)
           ((resolve_blob_name cid).getD "") = false →
       get_report_sas auth decode store signer cmap dC aN eS ttl now headers cid
           container region view filename ct
         = (⟨404, 0, "Not Found", none⟩, false)) := by
  constructor
  · intro container_name blob_name m hm
    unfold blob_exists
    rw [hm]
  · intro auth decode signer cmap dC aN eS ttl now headers cid container region view filename ct
      claims hok hex
    simp only [get_report_sas, hok, hex, Bool.false_eq_true, if_false]

/-- Claim C7 witness: with a store whose calls always raise, an
authenticated report request gets 404 Not Found and no signing call. -/
theorem claim7_witness :
    get_report_sas authFix decodeOkFix storeErrFix signerOkFix cmapFix "reports-cn" "acct"
        "core.windows.net" 5 1000 headersFix "693595" none none none none none
      = (⟨404, 0, "Not Found", none⟩, false) :=
  (claim7_existence_gate storeErrFix).2 authFix decodeOkFix signerOkFix cmapFix "reports-cn"
    "acct" "core.windows.net" 5 1000 headersFix "693595" none none none none none claimsFix
    rfl rfl

/-- Claim C9 counterexample: an authenticated report request in which the
external signing call raises is answered with HTTP status 200 (code 0,
generic message), not the claimed HTTP 500. -/
theorem claim9_counterexample :
    (get_report_sas authFix decodeOkFix storeTrueFix signerFailFix cmapFix "reports-cn" "acct"
        "core.windows.net" 5 1000 headersFix "693595" none none none none none).1
      = ⟨200, 0, "Failed to generate SAS link", none⟩ ∧
    (get_report_sas authFix decodeOkFix storeTrueFix signerFailFix cmapFix "reports-cn" "acct"
        "core.windows.net" 5 1000 headersFix "693595" none none none none none).1.status
      ≠ 500 := by
  refine ⟨by decide, by decide⟩

/-- Helper: the signing request is built whenever the effective blob name
is Python-truthy. -/
theorem build_sign_request_isSome (defaultContainer : String) (ttlMin now : Int)
    (character_id : String) (container_name : Option String) (view : String)
    (filename : Option String) (content_type : String) (blob_name_override : Option String)
    (hb : pyTruthy (pyOr blob_name_override (resolve_blob_name character_id)) = true) :
    ∃ r, build_sign_request defaultContainer ttlMin now character_id container_name view
        filename content_type blob_name_override = some r := by
  simp only [build_sign_request, hb, eq_self_iff_true, if_true]
  exact ⟨_, rfl⟩

/-- Claim C9 as amended: an unexpected internal failure after
authentication (for example a signing failure) yields HTTP status 200
with code 0 and a generic endpoint-specific message — not HTTP 500 — the
detail being only logged server-side. -/
theorem claim9_amended_internal_failure
    (auth : JWTAuth) (decode : String → Except String Claims)
    (store : String → String → StoreResult) (signer : SignRequest → Except String String)
    (cmap certMap : List (String × String)) (appRegion certDefault dC aN eS : String)
    (ttl now : Int) (headers : List (String × String)) (cid : String)
    (container region view filename content_type filename2 : Option String) (claims : Claims)
    (hauth : verify_and_match auth decode headers cid = Except.ok claims)
    (hsig : ∀ req, ∃ m, signer req = Except.error m)
    (hex1 : blob_exists store (resolve_container cmap dC container region)
        ((resolve_blob_name cid).getD "") = true)
    (hex2 : blob_exists store
        (resolve_container_cert certMap appRegion certDefault container region)
        (cid ++ ".png") = true) :
    get_report_sas auth decode store signer cmap dC aN eS ttl now headers cid
        container region view filename content_type
      = (⟨200, 0, "Failed to generate SAS link", none⟩, true) ∧
    get_certificate_sas auth decode store signer certMap appRegion certDefault dC aN eS ttl now
        headers cid container region view filename2
      = (⟨200, 0, "Failed to generate certificate SAS link", none⟩, true) := by
  have hb1 : pyTruthy (pyOr none (resolve_blob_name cid)) = true := by
    show pyTruthyStr (cid ++ ".pdf") = true
    exact pyTruthyStr_append cid ".pdf" (by decide)
  have hpng : pyTruthyStr (cid ++ ".png") = true := pyTruthyStr_append cid ".png" (by decide)
  have hb2 : pyTruthy (pyOr (some (cid ++ ".png")) (resolve_blob_name cid)) = true := by
    simp [pyOr, pyTruthy, hpng]
  obtain ⟨r1, hr1⟩ := build_sign_request_isSome dC ttl now cid
    (some (resolve_container cmap dC container region)) (resolve_view_mode view) filename
    (pyOrStr content_type "application/pdf") none hb1
  obtain ⟨m1, hm1⟩ := hsig r1
  obtain ⟨r2, hr2⟩ := build_sign_request_isSome dC ttl now cid
    (some (resolve_container_cert certMap appRegion certDefault container region))
    (resolve_view_mode view) (some (pyOrStr filename2 (cid ++ ".png"))) "image/png"
    (some (cid ++ ".png")) hb2
  obtain ⟨m2, hm2⟩ := hsig r2
  constructor
  · simp only [get_report_sas, hauth, hex1, eq_self_iff_true, if_true, build_sas_url, hr1, hm1]
  · simp only [get_certificate_sas, hauth, hex2, eq_self_iff_true, if_true, build_sas_url,
      hr2, hm2]

/-- Claim C9 witness: the amended behaviour at a concrete authenticated
request on both endpoints with an always-failing signer. -/
theorem claim9_witness :
    get_report_sas authFix decodeOkFix storeTrueFix signerFailFix cmapFix "reports-cn" "acct"
        "core.windows.net" 5 1000 headersFix "693595" none none none none none
      = (⟨200, 0, "Failed to generate SAS link", none⟩, true) ∧
    get_certificate_sas authFix decodeOkFix storeTrueFix signerFailFix certMapFix "cn"
        "certificates-cn" "reports-cn" "acct" "core.windows.net" 5 1000 headersFix "693595"
        none none none none
      = (⟨200, 0, "Failed to generate certificate SAS link", none⟩, true) :=
  claim9_amended_internal_failure authFix decodeOkFix storeTrueFix signerFailFix cmapFix
    certMapFix "cn" "certificates-cn" "reports-cn" "acct" "core.windows.net" 5 1000 headersFix
    "693595" none none none none none none claimsFix rfl
    (fun _ => ⟨"bad credential", rfl⟩) rfl rfl

/-- Claim C1: verification returns the token's claims exactly when a key
is configured, a token is extracted, its RS256 signature verifies, the
required `exp` and `iat` claims are present, `exp` is in the future, and
the token's `characterId` claim equals the path entity ID after string
normalization; and every verification error makes the endpoint answer
HTTP 401 with code 0 and null data. -/
theorem claim1_token_verification (auth : JWTAuth) (parse : String → Token) (now : Int)
    (headers : List (String × String)) (character_id : String)
    (store : String → String → StoreResult) (signer : SignRequest → Except String String)
    (cmap : List (String × String)) (dC aN eS : String) (ttl : Int)
    (container region view filename content_type : Option String) :
    (∀ claims : Claims,
       verify_and_match auth (jwtDecodeVia parse now) headers character_id
           = Except.ok claims ↔
         (pyTruthy auth.public_key = true ∧
          ∃ t, extract_bearer_token headers = some t ∧
            (parse t).sigValid = true ∧
            (∃ e, (parse t).claims.exp = some e ∧ now < e) ∧
            (parse t).claims.iat.isSome = true ∧
            characterIdStr (parse t).claims = character_id ∧
            claims = (parse t).claims)) ∧
    (∀ e, verify_and_match auth (jwtDecodeVia parse now) headers character_id
            = Except.error e →
       get_report_sas auth (jwtDecodeVia parse now) store signer cmap dC aN eS ttl now headers
           character_id container region view filename content_type
         = (⟨401, 0, e, none⟩, false)) := by
  constructor
  · intro claims
    unfold verify_and_match
    cases hk : pyTruthy auth.public_key with
    | false => simp
    | true =>
      rw [if_pos rfl]
      cases hx : extract_bearer_token headers with
      | none => simp
      | some t =>
        simp only [jwtDecodeVia]
        unfold jwtDecode
        cases hs : (parse t).sigValid with
        | false => simp [hs]
        | true =>
          rw [if_pos rfl]
          cases hex : (parse t).claims.exp with
          | none => simp [hex]
          | some ev =>
            cases hiat : (parse t).claims.iat with
            | none => simp [hiat]
            | some iv =>
              by_cases hle : ev ≤ now
              · have hnlt : ¬ now < ev := not_lt.mpr hle
                simp [hle, hs, hex, hiat, hnlt]
              · have hlt : now < ev := not_le.mp hle
                by_cases hm : characterIdStr (parse t).claims = character_id
                · simp [hle, hs, hex, hiat, hlt, hm]
                  exact eq_comm
                · simp [hle, hs, hex, hiat, hm]
  · intro e he
    simp only [get_report_sas, he]

/-- Claim C1 witness: a valid matching unexpired token for character
693595 verifies and returns its claims. -/
theorem claim1_witness :
    verify_and_match authFix (jwtDecodeVia parseFix 1000) headersFix "693595"
      = Except.ok claimsFix :=
  ((claim1_token_verification authFix parseFix 1000 headersFix "693595" storeTrueFix
      signerOkFix cmapFix "reports-cn" "acct" "core.windows.net" 5 none none none none
      none).1 claimsFix).mpr
    ⟨rfl, "sometoken", by decide, rfl, ⟨2000, rfl, by decide⟩, rfl, rfl, rfl⟩
